import Mathlib

/-
  Verification development for the c64u command-line client.

  The Go sources are shallowly embedded: pure helper functions become Lean
  functions, byte slices become `List Nat` (each entry < 256 in practice),
  Go's `map[string]string` query parameters become ordered association
  lists, and the generic JSON values produced by `encoding/json` become the
  inductive type `JVal` (numbers are modelled as rationals, mirroring the
  `float64` that `encoding/json` produces for every JSON number; `int(v)`
  conversion truncates toward zero).  The JSON parser itself is Go library
  code, so `parseResponse` receives the parse outcome as an explicit
  `Option` argument: `none` models `json.Unmarshal` failing, `some obj`
  models success with object `obj`.
-/

namespace C64U

/-! ## JSON values (model of Go `interface{}` values produced by `encoding/json`) -/

inductive JVal where
  | str (s : String)
  | num (q : ℚ)
  | bool (b : Bool)
  | null
  | arr (items : List JVal)
  | obj (fields : List (String × JVal))

/-- Go `int(v)` conversion of a JSON number: truncation toward zero. -/
def truncToInt (q : ℚ) : Int := q.num.tdiv q.den

/-! ## Response envelope (api/client.go) -/

/-- Embedding of the `Response` struct of `internal/api/client.go`. -/
structure Response where
  errors : List String
  data : List (String × JVal)
  statusCode : Nat
  rawBody : List Nat

/-- The string entries of a JSON array, in order, non-strings skipped
    (the extraction loop of `parseResponse`). -/
def strEntries (items : List JVal) : List String :=
  items.filterMap fun v => match v with | .str s => some s | _ => none

/-- Go `delete(jsonData, k)` on the unmarshalled map. -/
def removeKey (l : List (String × JVal)) (k : String) : List (String × JVal) :=
  l.filter fun p => p.1 != k

/-- The `errors`-field extraction of `parseResponse`: if the key `"errors"`
    holds a JSON array, collect its string entries and delete the key;
    otherwise (absent or non-array) leave the object untouched. -/
def extractErrors (obj : List (String × JVal)) : List String × List (String × JVal) :=
  match List.lookup "errors" obj with
  | some (.arr items) => (strEntries items, removeKey obj "errors")
  | _ => ([], obj)

/-- The synthesized error string `fmt.Sprintf("HTTP %d: %s", code, status)`. -/
def httpStatusError (code : Nat) (statusText : String) : String :=
  "HTTP " ++ toString code ++ ": " ++ statusText

/-- The status-code check at the end of `parseResponse`. -/
def checkStatus (statusText : String) (r : Response) : Response :=
  if r.statusCode < 200 ∨ 300 ≤ r.statusCode then
    if r.errors = [] then
      { r with errors := [httpStatusError r.statusCode statusText] }
    else r
  else r

/-- Embedding of `parseResponse` (api/client.go).  `statusText` is Go's
    `resp.Status`; `parsed` is the outcome of `json.Unmarshal` on `body`
    (`none` when the body is not a JSON object).  Note the Go code
    `return apiResp, nil` inside the unmarshal-failure branch: a nonempty
    body that fails to parse skips the status-code check entirely. -/
def parseResponse (statusCode : Nat) (statusText : String) (body : List Nat)
    (parsed : Option (List (String × JVal))) : Response :=
  let base : Response := ⟨[], [], statusCode, body⟩
  if body = [] then checkStatus statusText base
  else
    match parsed with
    | none => base
    | some obj =>
        let ex := extractErrors obj
        checkStatus statusText { base with errors := ex.1, data := ex.2 }

/-- Embedding of `Response.GetString`. -/
def Response.GetString (r : Response) (key : String) : String :=
  match List.lookup key r.data with
  | some (.str v) => v
  | _ => ""

/-- Embedding of `Response.GetInt` (the Go code asserts `float64` and
    converts with `int(val)`). -/
def Response.GetInt (r : Response) (key : String) : Int :=
  match List.lookup key r.data with
  | some (.num q) => truncToInt q
  | _ => 0

/-! ## Hex memory codec (api/machine.go) -/

/-- Value of a hex digit, as in Go's `encoding/hex` reverse table. -/
def hexVal (c : Char) : Option Nat :=
  if '0' ≤ c ∧ c ≤ '9' then some (c.toNat - 48)
  else if 'a' ≤ c ∧ c ≤ 'f' then some (c.toNat - 87)
  else if 'A' ≤ c ∧ c ≤ 'F' then some (c.toNat - 55)
  else none

/-- The two error kinds of Go's `encoding/hex`: `InvalidByteError` and
    `ErrLength`. -/
inductive HexError where
  | invalidByte (c : Char)
  | errLength
deriving DecidableEq

/-- Embedding of `hex.DecodeString`: decode pairs left to right, report the
    first invalid byte; a trailing lone character reports its own
    invalidity first, else odd length. -/
def decodeHexList : List Char → Except HexError (List Nat)
  | p :: q :: rest =>
      match hexVal p with
      | none => .error (.invalidByte p)
      | some a =>
          match hexVal q with
          | none => .error (.invalidByte q)
          | some b => (decodeHexList rest).map fun ds => (16 * a + b) :: ds
  | [c] =>
      match hexVal c with
      | none => .error (.invalidByte c)
      | some _ => .error .errLength
  | [] => .ok []

/-- The `0x`-prefix strip of `hexToBytes`: only when the string is longer
    than two characters and starts with `0x`. -/
def strip0x (cs : List Char) : List Char :=
  if cs.length > 2 ∧ cs.take 2 = ['0', 'x'] then cs.drop 2 else cs

/-- The even-length padding of `hexToBytes`: a leading `0` for odd length. -/
def padEven (cs : List Char) : List Char :=
  if cs.length % 2 ≠ 0 then '0' :: cs else cs

/-- Embedding of `hexToBytes` (api/machine.go). -/
def hexToBytes (hexStr : String) : Except HexError (List Nat) :=
  decodeHexList (padEven (strip0x hexStr.data))

/-- The 16-bit value denoted by a big-endian byte sequence (how a decoded
    address byte string is read as a number). -/
def addrValue (bs : List Nat) : Nat :=
  bs.foldl (fun a b => 256 * a + b) 0

/-! ## Memory dump formatting (api/machine.go, `FormatMemoryDump`) -/

/-- Uppercase hex digit, as produced by Go's `%X`. -/
def hexDigitCharU (n : Nat) : Char :=
  if n < 10 then Char.ofNat (48 + n) else Char.ofNat (55 + n)

/-- Fuel-driven most-significant-first hex digits; `fuel > n` suffices. -/
def hexDigitsAux : Nat → Nat → List Char
  | 0, _ => []
  | fuel + 1, n =>
      if n < 16 then [hexDigitCharU n]
      else hexDigitsAux fuel (n / 16) ++ [hexDigitCharU (n % 16)]

/-- The digits of `n` in uppercase hex (at least one digit). -/
def hexUpper (n : Nat) : List Char :=
  hexDigitsAux (n + 1) n

/-- Go's `%0wX`: uppercase hex, zero-padded on the left to a minimum width
    of `w` (longer values print all their digits). -/
def hexUpperPad (w n : Nat) : String :=
  ⟨List.replicate (w - (hexUpper n).length) '0' ++ hexUpper n⟩

/-- The hex-cell area of one dump row: 16 column slots, each `%02X ` when
    in bounds and three spaces otherwise, with the extra space after
    column 7 (the `j == 7` branch of the Go loop). -/
def hexCells (data : List Nat) (i : Nat) : String :=
  String.join ((List.range 16).map fun j =>
    (if i + j < data.length then hexUpperPad 2 (data.getD (i + j) 0) ++ " " else "   ")
      ++ (if j = 7 then " " else ""))

/-- One character of the ASCII column. -/
def asciiCell (b : Nat) : String :=
  if 32 ≤ b ∧ b ≤ 126 then String.singleton (Char.ofNat b) else "."

/-- The ASCII column of one dump row: the Go loop
    `for j := 0; j < 16 && i+j < len(data); j++`. -/
def asciiCol (data : List Nat) (i : Nat) : String :=
  String.join (((List.range 16).takeWhile fun j => i + j < data.length).map
    fun j => asciiCell (data.getD (i + j) 0))

/-- One row of the dump, at byte offset `i`. -/
def dumpRow (data : List Nat) (startAddr i : Nat) : String :=
  hexUpperPad 4 (startAddr + i) ++ ": " ++ hexCells data i ++ " |" ++ asciiCol data i ++ "|\n"

/-- The rows of the dump: the Go loop `for i := 0; i < len(data); i += 16`. -/
def dumpRows (data : List Nat) (startAddr : Nat) : List String :=
  (List.range ((data.length + 15) / 16)).map fun r => dumpRow data startAddr (16 * r)

/-- Embedding of `FormatMemoryDump` (api/machine.go). -/
def FormatMemoryDump (data : List Nat) (startAddr : Nat) : String :=
  String.join (dumpRows data startAddr)

/-! ## Request builders (api/runners.go, api/drives.go, streams, files) -/

/-- The kind of request body: none (PUT with query parameters only) or the
    streamed content of a local file (upload POST). -/
inductive BodyKind where
  | none
  | fileUpload (localPath : String)
deriving DecidableEq

/-- An assembled HTTP request: method, endpoint path, query parameters,
    body kind. -/
structure Request where
  method : String
  endpoint : String
  params : List (String × String)
  body : BodyKind
deriving DecidableEq

/-- Drop the query parameter named `k`. -/
def eraseParam (ps : List (String × String)) (k : String) : List (String × String) :=
  ps.filter fun p => p.1 != k

/-- Embedding of `SidPlay` (api/runners.go): PUT `/v1/runners:sidplay` with `file`, and
    `songnr` only when positive. -/
def SidPlay (file : String) (songNr : Int) : Request :=
  { method := "PUT", endpoint := "/v1/runners:sidplay",
    params := [("file", file)] ++ (if songNr > 0 then [("songnr", toString songNr)] else []),
    body := .none }

/-- Embedding of `SidPlayUpload` (api/runners.go): POST the local file to the same
    endpoint, `songnr` only when positive, no `file` parameter. -/
def SidPlayUpload (localFile : String) (songNr : Int) : Request :=
  { method := "POST", endpoint := "/v1/runners:sidplay",
    params := (if songNr > 0 then [("songnr", toString songNr)] else []),
    body := .fileUpload localFile }

/-- Embedding of `ModPlay` (api/runners.go). -/
def ModPlay (file : String) : Request :=
  { method := "PUT", endpoint := "/v1/runners:modplay",
    params := [("file", file)], body := .none }

/-- Embedding of `ModPlayUpload` (api/runners.go). -/
def ModPlayUpload (localFile : String) : Request :=
  { method := "POST", endpoint := "/v1/runners:modplay",
    params := [], body := .fileUpload localFile }

/-- Embedding of `LoadPRG` (api/runners.go). -/
def LoadPRG (file : String) : Request :=
  { method := "PUT", endpoint := "/v1/runners:load_prg",
    params := [("file", file)], body := .none }

/-- Embedding of `LoadPRGUpload` (api/runners.go). -/
def LoadPRGUpload (localFile : String) : Request :=
  { method := "POST", endpoint := "/v1/runners:load_prg",
    params := [], body := .fileUpload localFile }

/-- Embedding of `RunPRG` (api/runners.go). -/
def RunPRG (file : String) : Request :=
  { method := "PUT", endpoint := "/v1/runners:run_prg",
    params := [("file", file)], body := .none }

/-- Embedding of `RunPRGUpload` (api/runners.go). -/
def RunPRGUpload (localFile : String) : Request :=
  { method := "POST", endpoint := "/v1/runners:run_prg",
    params := [], body := .fileUpload localFile }

/-- Embedding of `RunCRT` (api/runners.go). -/
def RunCRT (file : String) : Request :=
  { method := "PUT", endpoint := "/v1/runners:run_crt",
    params := [("file", file)], body := .none }

/-- Embedding of `RunCRTUpload` (api/runners.go). -/
def RunCRTUpload (localFile : String) : Request :=
  { method := "POST", endpoint := "/v1/runners:run_crt",
    params := [], body := .fileUpload localFile }

/-- Embedding of `DrivesMount` (api/drives.go): PUT `/v1/drives/<drive>:mount` with
    `image`, plus `type`/`mode` only when nonempty. -/
def DrivesMount (drive image imageType mode : String) : Request :=
  { method := "PUT", endpoint := "/v1/drives/" ++ drive ++ ":mount",
    params := [("image", image)]
      ++ (if imageType ≠ "" then [("type", imageType)] else [])
      ++ (if mode ≠ "" then [("mode", mode)] else []),
    body := .none }

/-- Embedding of `DrivesMountUpload` (api/drives.go): POST the local image, same
    endpoint, no `image` parameter. -/
def DrivesMountUpload (drive localFile imageType mode : String) : Request :=
  { method := "POST", endpoint := "/v1/drives/" ++ drive ++ ":mount",
    params := (if imageType ≠ "" then [("type", imageType)] else [])
      ++ (if mode ≠ "" then [("mode", mode)] else []),
    body := .fileUpload localFile }

/-- Embedding of `DrivesLoadROM` (api/drives.go). -/
def DrivesLoadROM (drive file : String) : Request :=
  { method := "PUT", endpoint := "/v1/drives/" ++ drive ++ ":load_rom",
    params := [("file", file)], body := .none }

/-- Embedding of `DrivesLoadROMUpload` (api/drives.go). -/
def DrivesLoadROMUpload (drive localFile : String) : Request :=
  { method := "POST", endpoint := "/v1/drives/" ++ drive ++ ":load_rom",
    params := [], body := .fileUpload localFile }

/-- Embedding of `StreamsStart` (api streams file): PUT `/v1/streams/<stream>:start`
    with the single parameter `ip`. -/
def StreamsStart (stream ip : String) : Request :=
  { method := "PUT", endpoint := "/v1/streams/" ++ stream ++ ":start",
    params := [("ip", ip)], body := .none }

/-- Embedding of `FilesCreateDNP` (api files file): PUT `/v1/files/<path>:create_dnp`
    with `tracks` always, `diskname` only when nonempty. -/
def FilesCreateDNP (path : String) (tracks : Int) (diskName : String) : Request :=
  { method := "PUT", endpoint := "/v1/files/" ++ path ++ ":create_dnp",
    params := [("tracks", toString tracks)]
      ++ (if diskName ≠ "" then [("diskname", diskName)] else []),
    body := .none }

/-! ## Command-layer validation (cmd/c64u/streams_files.go) -/

/-- The valid stream names checked by `streamsStartCmd`. -/
def validStreams : List String := ["video", "audio", "debug"]

/-- Model of the `Run` body of `streamsStartCmd`: validate the stream name before
    any request is built, then delegate to `StreamsStart`. -/
def streamsStartCmdRun (stream ip : String) : Except String Request :=
  if stream ∈ validStreams then .ok (StreamsStart stream ip)
  else .error "Invalid stream type"

/-- Model of the `Run` body of `filesCreateDNPCmd`: the `tracks` flag defaults to 0
    (and is additionally marked required by cobra), 0 is rejected as
    missing, values above 255 are rejected, everything else is passed to
    `FilesCreateDNP`. -/
def filesCreateDNPCmdRun (path : String) (tracks : Int) (name : String) : Except String Request :=
  if tracks = 0 then .error "Missing required flag"
  else if tracks > 255 then .error "Invalid tracks value"
  else .ok (FilesCreateDNP path tracks name)

/-- ASCII bytes of a string (used only to write concrete response bodies). -/
def asciiBytes (s : String) : List Nat :=
  s.data.map Char.toNat

/-! ## Spec-side definitions (written from the spec wording, for refinement) -/

/-- Whether a character is an uppercase hexadecimal digit (`0`-`9`, `A`-`F`). -/
def isUpperHexDigit (c : Char) : Bool :=
  (decide (48 ≤ c.toNat) && decide (c.toNat ≤ 57)) ||
    (decide (65 ≤ c.toNat) && decide (c.toNat ≤ 70))

/-- Modelled from the spec: one column slot of a dump row, the byte at
    absolute index `k` as 2-digit uppercase hex plus a space when in
    bounds, three spaces otherwise. -/
def specHexCell (data : List Nat) (k : Nat) : String :=
  if k < data.length then hexUpperPad 2 (data.getD k 0) ++ " " else "   "

/-- Modelled from the spec: the hex area of a row as two groups of eight
    column slots separated by the extra space after column 7. -/
def specHexArea (data : List Nat) (i : Nat) : String :=
  String.join ((List.range' 0 8).map fun j => specHexCell data (i + j)) ++ " " ++
    String.join ((List.range' 8 8).map fun j => specHexCell data (i + j))

/-- Modelled from the spec: one dump row — address zero-padded uppercase
    hex (minimum width 4), `": "`, the two slot groups, `" |"`, one
    character per in-bounds byte, `"|"`, newline. -/
def specRow (data : List Nat) (startAddr i : Nat) : String :=
  hexUpperPad 4 (startAddr + i) ++ ": " ++ specHexArea data i ++ " |" ++
    asciiCol data i ++ "|\n"

/-- Modelled from the spec: the whole dump, one row per 16-byte chunk. -/
def specFormatDump (data : List Nat) (startAddr : Nat) : String :=
  String.join ((List.range ((data.length + 15) / 16)).map fun r =>
    specRow data startAddr (16 * r))

/-! ## Helper lemmas -/

/-- Induction principle stepping two list elements at a time, matching the
    pair decoding of `decodeHexList`. -/
theorem listPairInduction {α : Type} {P : List α → Prop} (h0 : P [])
    (h1 : ∀ c, P [c]) (h2 : ∀ p q rest, P rest → P (p :: q :: rest)) :
    ∀ l, P l
  | [] => h0
  | [c] => h1 c
  | p :: q :: rest => h2 p q rest (listPairInduction h0 h1 h2 rest)

/-- Even-length input never decodes to the length error. -/
theorem decodeHexList_ne_errLength :
    ∀ l : List Char, l.length % 2 = 0 → decodeHexList l ≠ .error .errLength := by
  refine listPairInduction ?_ ?_ ?_
  · intro _h
    simp [decodeHexList]
  · intro c h
    simp at h
  · intro p q rest ih hlen
    have hrest : rest.length % 2 = 0 := by
      simp [List.length_cons] at hlen
      omega
    unfold decodeHexList
    cases hp : hexVal p with
    | none => simp
    | some a =>
        cases hq : hexVal q with
        | none => simp
        | some b =>
            cases hdec : decodeHexList rest with
            | error e =>
                have := ih hrest
                rw [hdec] at this
                simp [Except.map]
                intro h
                exact this (by rw [h])
            | ok ds => simp [Except.map]

/-- Even-length input decodes successfully iff every character is a hex
    digit. -/
theorem decodeHexList_ok_iff :
    ∀ l : List Char, l.length % 2 = 0 →
      ((∃ bs, decodeHexList l = .ok bs) ↔ ∀ c ∈ l, (hexVal c).isSome) := by
  refine listPairInduction ?_ ?_ ?_
  · intro _h
    simp [decodeHexList]
  · intro c h
    simp at h
  · intro p q rest ih hlen
    have hrest : rest.length % 2 = 0 := by
      simp [List.length_cons] at hlen
      omega
    unfold decodeHexList
    constructor
    · rintro ⟨bs, hbs⟩ c hc
      cases hp : hexVal p with
      | none => rw [hp] at hbs; simp at hbs
      | some a =>
          cases hq : hexVal q with
          | none => rw [hp, hq] at hbs; simp at hbs
          | some b =>
              rw [hp, hq] at hbs
              cases hdec : decodeHexList rest with
              | error e => rw [hdec] at hbs; simp [Except.map] at hbs
              | ok ds =>
                  have hall : ∀ c ∈ rest, (hexVal c).isSome :=
                    (ih hrest).mp ⟨ds, hdec⟩
                  simp at hc
                  rcases hc with rfl | rfl | hc
                  · simp [hp]
                  · simp [hq]
                  · exact hall _ hc
    · intro hall
      have hp : (hexVal p).isSome := hall p (by simp)
      have hq : (hexVal q).isSome := hall q (by simp)
      rcases Option.isSome_iff_exists.mp hp with ⟨a, ha⟩
      rcases Option.isSome_iff_exists.mp hq with ⟨b, hb⟩
      rcases (ih hrest).mpr (fun c hc => hall c (by simp [hc])) with ⟨ds, hds⟩
      exact ⟨(16 * a + b) :: ds, by rw [ha, hb, hds]; rfl⟩

/-- A reported invalid byte really is a non-hex character. -/
theorem decodeHexList_invalidByte :
    ∀ l : List Char, ∀ c, decodeHexList l = .error (.invalidByte c) →
      hexVal c = none := by
  refine listPairInduction ?_ ?_ ?_
  · intro c h
    simp [decodeHexList] at h
  · intro c c' h
    unfold decodeHexList at h
    cases hc : hexVal c with
    | none =>
        rw [hc] at h
        simp at h
        rw [← h]
        exact hc
    | some a => rw [hc] at h; simp at h
  · intro p q rest ih c h
    unfold decodeHexList at h
    cases hp : hexVal p with
    | none =>
        rw [hp] at h
        simp at h
        rw [← h]
        exact hp
    | some a =>
        cases hq : hexVal q with
        | none =>
            rw [hp, hq] at h
            simp at h
            rw [← h]
            exact hq
        | some b =>
            rw [hp, hq] at h
            cases hdec : decodeHexList rest with
            | error e =>
                rw [hdec] at h
                simp [Except.map] at h
                exact ih c (by rw [hdec, h])
            | ok ds => rw [hdec] at h; simp [Except.map] at h

/-- Padding always yields an even length. -/
theorem padEven_even (cs : List Char) : (padEven cs).length % 2 = 0 := by
  unfold padEven
  split
  · simp
    omega
  · omega

/-! ## Claim C2 — hex byte-string parsing errors -/

/-- C2 counterexample: the odd-length input `"400"` does not fail with the
    length error as claimed; `hexToBytes` left-pads it and succeeds with
    the bytes `[0x04, 0x00]`. -/
theorem c2_counterexample : hexToBytes "400" = .ok [4, 0] := by rfl

/-- C2 (amended): `hexToBytes` never fails with the length error, because
    odd-length input (after the optional `0x` strip) is left-padded with a
    zero; it succeeds exactly when every character of the stripped, padded
    input is a hex digit, and any reported invalid byte really is a
    character outside `[0-9a-fA-F]`. -/
theorem c2_hex_byte_string_errors :
    (∀ s : String, hexToBytes s ≠ .error .errLength) ∧
    (∀ s : String,
      ((∃ bs, hexToBytes s = .ok bs) ↔
        ∀ c ∈ padEven (strip0x s.data), (hexVal c).isSome)) ∧
    (∀ s : String, ∀ c, hexToBytes s = .error (.invalidByte c) → hexVal c = none) := by
  refine ⟨fun s => ?_, fun s => ?_, fun s c h => ?_⟩
  · exact decodeHexList_ne_errLength _ (padEven_even _)
  · exact decodeHexList_ok_iff _ (padEven_even _)
  · exact decodeHexList_invalidByte _ c h

/-- C2 witness: concrete instances of the three conjuncts — `"12q4"`
    contains the non-hex character `q` and indeed fails with an
    invalid-byte error whose byte is non-hex. -/
theorem c2_hex_byte_string_errors_witness :
    hexToBytes "12q4" ≠ .error .errLength ∧
    ((∃ bs, hexToBytes "12q4" = .ok bs) ↔
      ∀ c ∈ padEven (strip0x "12q4".data), (hexVal c).isSome) ∧
    hexVal 'q' = none := by
  refine ⟨c2_hex_byte_string_errors.1 "12q4", c2_hex_byte_string_errors.2.1 "12q4", ?_⟩
  exact c2_hex_byte_string_errors.2.2 "12q4" 'q' (by rfl)

/-! ## Claim C3 — address parsing -/

/-- C3 counterexample: a `$` prefix is not stripped (only `0x` is), so
    `parse_address("$0400")` fails with an invalid-byte error on `$`
    instead of succeeding with 0x0400 as claimed. -/
theorem c3_counterexample : hexToBytes "$0400" = .error (.invalidByte '$') := by rfl

/-- C3 (amended): `hexToBytes` strips an optional `0x` prefix (but not
    `$`), left-pads odd-length input with a zero and parses base-16, so
    `"400"`, `"0400"` and `"0x0400"` all yield the bytes `[0x04, 0x00]`,
    i.e. the address value 0x0400, while any remaining non-hex character
    makes it fail. -/
theorem c3_parse_address :
    hexToBytes "400" = .ok [4, 0] ∧
    hexToBytes "0400" = .ok [4, 0] ∧
    hexToBytes "0x0400" = .ok [4, 0] ∧
    addrValue [4, 0] = 0x0400 ∧
    (∀ c cs, strip0x ('0' :: 'x' :: c :: cs) = c :: cs) ∧
    (∀ cs : List Char, cs.length % 2 = 1 → padEven cs = '0' :: cs) := by
  refine ⟨by rfl, by rfl, by rfl, by rfl, fun c cs => ?_, fun cs h => ?_⟩
  · unfold strip0x
    rw [if_pos ⟨by simp, rfl⟩]
    rfl
  · unfold padEven
    rw [if_pos (show cs.length % 2 ≠ 0 by omega)]

/-- C3 witness: the prefix-strip and padding conjuncts instantiated at
    the concrete input `0x400`. -/
theorem c3_parse_address_witness :
    strip0x ('0' :: 'x' :: '4' :: ['0', '0']) = '4' :: ['0', '0'] ∧
    padEven ['4', '0', '0'] = '0' :: ['4', '0', '0'] := by
  exact ⟨c3_parse_address.2.2.2.2.1 '4' ['0', '0'],
    c3_parse_address.2.2.2.2.2 ['4', '0', '0'] (by rfl)⟩

/-! ## checkStatus facts shared by the envelope claims -/

/-- checkStatus only ever touches the error list, not the raw body. -/
theorem checkStatus_rawBody (st : String) (r : Response) :
    (checkStatus st r).rawBody = r.rawBody := by
  unfold checkStatus
  split
  · split <;> simp
  · rfl

/-- checkStatus only ever touches the error list, not the status code. -/
theorem checkStatus_statusCode (st : String) (r : Response) :
    (checkStatus st r).statusCode = r.statusCode := by
  unfold checkStatus
  split
  · split <;> simp
  · rfl

/-- checkStatus only ever touches the error list, not the payload. -/
theorem checkStatus_data (st : String) (r : Response) :
    (checkStatus st r).data = r.data := by
  unfold checkStatus
  split
  · split <;> simp
  · rfl

/-- checkStatus leaves a nonempty error list unchanged. -/
theorem checkStatus_errors_of_ne (st : String) (r : Response) (h : r.errors ≠ []) :
    (checkStatus st r).errors = r.errors := by
  simp [checkStatus, h]

/-- checkStatus leaves the error list unchanged on a 2xx status. -/
theorem checkStatus_errors_of_ok (st : String) (r : Response)
    (h : 200 ≤ r.statusCode ∧ r.statusCode < 300) :
    (checkStatus st r).errors = r.errors := by
  unfold checkStatus
  rw [if_neg (by omega)]

/-! ## Claim C1 — synthesized HTTP status error -/

/-- C1 counterexample: status 400 with the nonempty non-JSON body `[0xFF]`
    leaves the error list empty — the unmarshal-failure branch returns
    early, skipping the synthesis the claim promises for every body. -/
theorem c1_counterexample :
    (parseResponse 400 "400 Bad Request" [255] none).errors = [] := by rfl

/-- C1 (amended): when the status is outside [200,300) and the body is
    empty, or parses as a JSON object whose extracted error list is empty,
    `parseResponse` appends exactly one synthesized `"HTTP <code>:
    <status text>"` error; but a nonempty body that fails JSON parsing
    skips the synthesis entirely and the error list stays empty. -/
theorem c1_http_error_synthesis :
    (∀ (sc : Nat) (st : String) (parsed : Option (List (String × JVal))),
      (sc < 200 ∨ 300 ≤ sc) →
      (parseResponse sc st [] parsed).errors = [httpStatusError sc st]) ∧
    (∀ (sc : Nat) (st : String) (body : List Nat) (obj : List (String × JVal)),
      (sc < 200 ∨ 300 ≤ sc) → body ≠ [] → (extractErrors obj).1 = [] →
      (parseResponse sc st body (some obj)).errors = [httpStatusError sc st]) ∧
    (∀ (sc : Nat) (st : String) (body : List Nat),
      body ≠ [] → (parseResponse sc st body none).errors = []) := by
  refine ⟨?_, ?_, ?_⟩
  · intro sc st parsed h
    simp [parseResponse, checkStatus, h]
  · intro sc st body obj h hb he
    simp [parseResponse, checkStatus, h, hb, he]
  · intro sc st body hb
    simp [parseResponse, hb]

/-- C1 witness: the three conjuncts at concrete inputs — an empty 404
    body, a JSON 400 body without device errors, and a binary 500 body. -/
theorem c1_http_error_synthesis_witness :
    (parseResponse 404 "404 Not Found" [] none).errors = [httpStatusError 404 "404 Not Found"] ∧
    (parseResponse 400 "400 Bad Request" [123] (some [("x", JVal.null)])).errors
      = [httpStatusError 400 "400 Bad Request"] ∧
    (parseResponse 500 "500 Internal Server Error" [255] none).errors = [] :=
  ⟨c1_http_error_synthesis.1 404 "404 Not Found" none (by omega),
   c1_http_error_synthesis.2.1 400 "400 Bad Request" [123] [("x", JVal.null)]
     (by omega) (by simp) (by rfl),
   c1_http_error_synthesis.2.2 500 "500 Internal Server Error" [255] (by simp)⟩

/-! ## Claim C5 — envelope invariants -/

/-- C5 counterexample: when the `errors` key holds a non-array value the
    type assertion fails and the key is *not* removed, so it is still
    visible in the exposed payload, contrary to the claimed invariant. -/
theorem c5_counterexample :
    List.lookup "errors"
      ((parseResponse 200 "200 OK" (asciiBytes "\x7b\x22errors\x22:\x22oops\x22\x7d")
        (some [("errors", JVal.str "oops")])).data) = some (JVal.str "oops") := by rfl

/-- C5 (amended): the raw body and status code are always preserved
    verbatim, whatever the parse outcome; and when the body is a JSON
    object whose `errors` key holds an array, the key is removed from the
    exposed payload and the error list is exactly the array's string
    entries in received order (non-strings skipped) whenever that list is
    nonempty or the status is 2xx.  (A non-array `errors` value is left in
    the payload, as the counterexample shows.)  The concrete body
    `\x7b"errors":["bad address"]\x7d` with status 400 yields
    errors=["bad address"] and an empty payload. -/
theorem c5_envelope_invariants :
    (∀ (sc : Nat) (st : String) (body : List Nat) (parsed : Option (List (String × JVal))),
      (parseResponse sc st body parsed).rawBody = body ∧
      (parseResponse sc st body parsed).statusCode = sc) ∧
    (∀ (sc : Nat) (st : String) (body : List Nat) (obj : List (String × JVal))
      (items : List JVal), body ≠ [] →
      List.lookup "errors" obj = some (.arr items) →
      (parseResponse sc st body (some obj)).data = removeKey obj "errors" ∧
      (strEntries items ≠ [] ∨ (200 ≤ sc ∧ sc < 300) →
        (parseResponse sc st body (some obj)).errors = strEntries items)) ∧
    parseResponse 400 "400 Bad Request"
        (asciiBytes "\x7b\x22errors\x22:[\x22bad address\x22]\x7d")
        (some [("errors", .arr [.str "bad address"])]) =
      ⟨["bad address"], [],
        400, asciiBytes "\x7b\x22errors\x22:[\x22bad address\x22]\x7d"⟩ := by
  refine ⟨?_, ?_, by rfl⟩
  · intro sc st body parsed
    unfold parseResponse
    by_cases hb : body = []
    · simp [hb, checkStatus_rawBody, checkStatus_statusCode]
    · cases parsed with
      | none => simp [hb]
      | some obj => simp [hb, checkStatus_rawBody, checkStatus_statusCode]
  · intro sc st body obj items hb hlk
    have hex : extractErrors obj = (strEntries items, removeKey obj "errors") := by
      simp [extractErrors, hlk]
    constructor
    · simp [parseResponse, hb, hex, checkStatus_data]
    · intro hcase
      rcases hcase with hne | hok
      · simp only [parseResponse, if_neg hb, hex]
        rw [checkStatus_errors_of_ne _ _ (by simpa using hne)]
      · simp only [parseResponse, if_neg hb, hex]
        rw [checkStatus_errors_of_ok _ _ (by simpa using hok)]

/-- C5 witness: the quantified conjuncts at a concrete mixed `errors`
    array (strings and a number, so the number is skipped). -/
theorem c5_envelope_invariants_witness :
    (parseResponse 200 "200 OK" [7] none).rawBody = [7] ∧
    (parseResponse 400 "400 Bad Request" [123]
        (some [("errors", JVal.arr [JVal.str "a", JVal.num 3, JVal.str "b"]),
          ("k", JVal.null)])).data
      = removeKey [("errors", JVal.arr [JVal.str "a", JVal.num 3, JVal.str "b"]),
          ("k", JVal.null)] "errors" ∧
    (parseResponse 400 "400 Bad Request" [123]
        (some [("errors", JVal.arr [JVal.str "a", JVal.num 3, JVal.str "b"]),
          ("k", JVal.null)])).errors
      = strEntries [JVal.str "a", JVal.num 3, JVal.str "b"] := by
  refine ⟨(c5_envelope_invariants.1 200 "200 OK" [7] none).1, ?_, ?_⟩
  · exact (c5_envelope_invariants.2.1 400 "400 Bad Request" [123] _ _
      (by simp) (by rfl)).1
  · exact (c5_envelope_invariants.2.1 400 "400 Bad Request" [123] _ _
      (by simp) (by rfl)).2
      (Or.inl (by rw [show strEntries [JVal.str "a", JVal.num 3, JVal.str "b"]
        = ["a", "b"] from rfl]; simp))

/-! ## Claim C6 — stream-name validation -/

/-- C6: a stream name outside video/audio/debug is rejected before any
    request is built, and `start("video", ip)` builds a PUT to
    `/v1/streams/video:start` with the single query parameter `ip`. -/
theorem c6_streams_validation :
    (∀ stream ip : String, stream ∉ validStreams →
      streamsStartCmdRun stream ip = .error "Invalid stream type") ∧
    (∀ ip : String, streamsStartCmdRun "video" ip =
      .ok { method := "PUT", endpoint := "/v1/streams/video:start",
            params := [("ip", ip)], body := .none }) := by
  refine ⟨fun stream ip h => ?_, fun ip => ?_⟩
  · simp [streamsStartCmdRun, h]
  · rfl

/-- C6 witness: the invalid stream `"laser"` and the valid `"video"` with
    ip 1.2.3.4. -/
theorem c6_streams_validation_witness :
    streamsStartCmdRun "laser" "1.2.3.4" = .error "Invalid stream type" ∧
    streamsStartCmdRun "video" "1.2.3.4" =
      .ok { method := "PUT", endpoint := "/v1/streams/video:start",
            params := [("ip", "1.2.3.4")], body := .none } :=
  ⟨c6_streams_validation.1 "laser" "1.2.3.4" (by decide),
   c6_streams_validation.2 "1.2.3.4"⟩

/-! ## Claim C7 — DNP track-count validation -/

/-- C7 counterexample: a negative track count (outside [1,255]) is *not*
    rejected — the command only checks `== 0` and `> 255`, so `-5`
    reaches the request builder and a request with `tracks=-5` is built. -/
theorem c7_counterexample :
    filesCreateDNPCmdRun "/usb0/bigdisk.dnp" (-5) "" =
      .ok { method := "PUT", endpoint := "/v1/files//usb0/bigdisk.dnp:create_dnp",
            params := [("tracks", "-5")], body := .none } := by rfl

/-- C7 (amended): the track count is mandatory (the flag defaults to 0 and
    0 is rejected as missing) and counts above 255 are rejected, both
    before any request is built; count 200 builds a PUT to
    `/v1/files/<path>:create_dnp` with `tracks=200`.  Negative counts are
    not rejected (see the counterexample). -/
theorem c7_dnp_validation :
    (∀ path name : String,
      filesCreateDNPCmdRun path 0 name = .error "Missing required flag") ∧
    (∀ (path name : String) (t : Int), 255 < t →
      filesCreateDNPCmdRun path t name = .error "Invalid tracks value") ∧
    (∀ path name : String,
      filesCreateDNPCmdRun path 200 name = .ok (FilesCreateDNP path 200 name)) ∧
    (∀ path : String, FilesCreateDNP path 200 "" =
      { method := "PUT", endpoint := "/v1/files/" ++ path ++ ":create_dnp",
        params := [("tracks", "200")], body := .none }) := by
  refine ⟨fun path name => rfl, fun path name t h => ?_, fun path name => rfl,
    fun path => rfl⟩
  unfold filesCreateDNPCmdRun
  rw [if_neg (show ¬t = 0 by omega), if_pos (show t > 255 by omega)]

/-- C7 witness: missing tracks (0), 300 and 200 at a concrete path. -/
theorem c7_dnp_validation_witness :
    filesCreateDNPCmdRun "/usb0/bigdisk.dnp" 0 "" = .error "Missing required flag" ∧
    filesCreateDNPCmdRun "/usb0/bigdisk.dnp" 300 "" = .error "Invalid tracks value" ∧
    filesCreateDNPCmdRun "/usb0/bigdisk.dnp" 200 "" =
      .ok (FilesCreateDNP "/usb0/bigdisk.dnp" 200 "") :=
  ⟨c7_dnp_validation.1 "/usb0/bigdisk.dnp" "",
   c7_dnp_validation.2.1 "/usb0/bigdisk.dnp" "" 300 (by omega),
   c7_dnp_validation.2.2.1 "/usb0/bigdisk.dnp" ""⟩

/-! ## Claim C8 — upload variants -/

/-- C8: every upload variant posts the local file as the body to the same
    endpoint as its non-upload variant, with the same query parameters
    except that the `file`/`image` path parameter is omitted. -/
theorem c8_upload_variants :
    (∀ (file localFile : String) (songNr : Int),
      (SidPlay file songNr).method = "PUT" ∧
      (SidPlayUpload localFile songNr).method = "POST" ∧
      (SidPlayUpload localFile songNr).endpoint = (SidPlay file songNr).endpoint ∧
      (SidPlayUpload localFile songNr).params
        = eraseParam (SidPlay file songNr).params "file" ∧
      (SidPlay file songNr).body = .none ∧
      (SidPlayUpload localFile songNr).body = .fileUpload localFile) ∧
    (∀ file localFile : String,
      (ModPlay file).method = "PUT" ∧ (ModPlayUpload localFile).method = "POST" ∧
      (ModPlayUpload localFile).endpoint = (ModPlay file).endpoint ∧
      (ModPlayUpload localFile).params = eraseParam (ModPlay file).params "file" ∧
      (ModPlay file).body = .none ∧
      (ModPlayUpload localFile).body = .fileUpload localFile) ∧
    (∀ file localFile : String,
      (LoadPRG file).method = "PUT" ∧ (LoadPRGUpload localFile).method = "POST" ∧
      (LoadPRGUpload localFile).endpoint = (LoadPRG file).endpoint ∧
      (LoadPRGUpload localFile).params = eraseParam (LoadPRG file).params "file" ∧
      (LoadPRG file).body = .none ∧
      (LoadPRGUpload localFile).body = .fileUpload localFile) ∧
    (∀ file localFile : String,
      (RunPRG file).method = "PUT" ∧ (RunPRGUpload localFile).method = "POST" ∧
      (RunPRGUpload localFile).endpoint = (RunPRG file).endpoint ∧
      (RunPRGUpload localFile).params = eraseParam (RunPRG file).params "file" ∧
      (RunPRG file).body = .none ∧
      (RunPRGUpload localFile).body = .fileUpload localFile) ∧
    (∀ file localFile : String,
      (RunCRT file).method = "PUT" ∧ (RunCRTUpload localFile).method = "POST" ∧
      (RunCRTUpload localFile).endpoint = (RunCRT file).endpoint ∧
      (RunCRTUpload localFile).params = eraseParam (RunCRT file).params "file" ∧
      (RunCRT file).body = .none ∧
      (RunCRTUpload localFile).body = .fileUpload localFile) ∧
    (∀ drive image localFile imageType mode : String,
      (DrivesMount drive image imageType mode).method = "PUT" ∧
      (DrivesMountUpload drive localFile imageType mode).method = "POST" ∧
      (DrivesMountUpload drive localFile imageType mode).endpoint
        = (DrivesMount drive image imageType mode).endpoint ∧
      (DrivesMountUpload drive localFile imageType mode).params
        = eraseParam (DrivesMount drive image imageType mode).params "image" ∧
      (DrivesMount drive image imageType mode).body = .none ∧
      (DrivesMountUpload drive localFile imageType mode).body = .fileUpload localFile) ∧
    (∀ drive file localFile : String,
      (DrivesLoadROM drive file).method = "PUT" ∧
      (DrivesLoadROMUpload drive localFile).method = "POST" ∧
      (DrivesLoadROMUpload drive localFile).endpoint = (DrivesLoadROM drive file).endpoint ∧
      (DrivesLoadROMUpload drive localFile).params
        = eraseParam (DrivesLoadROM drive file).params "file" ∧
      (DrivesLoadROM drive file).body = .none ∧
      (DrivesLoadROMUpload drive localFile).body = .fileUpload localFile) := by
  refine ⟨fun file localFile songNr => ⟨rfl, rfl, rfl, ?_, rfl, rfl⟩,
    fun file localFile => ⟨rfl, rfl, rfl, rfl, rfl, rfl⟩,
    fun file localFile => ⟨rfl, rfl, rfl, rfl, rfl, rfl⟩,
    fun file localFile => ⟨rfl, rfl, rfl, rfl, rfl, rfl⟩,
    fun file localFile => ⟨rfl, rfl, rfl, rfl, rfl, rfl⟩,
    fun drive image localFile imageType mode => ⟨rfl, rfl, rfl, ?_, rfl, rfl⟩,
    fun drive file localFile => ⟨rfl, rfl, rfl, rfl, rfl, rfl⟩⟩
  · unfold SidPlay SidPlayUpload eraseParam
    by_cases h : songNr > 0 <;> simp [h]
  · unfold DrivesMount DrivesMountUpload eraseParam
    by_cases h1 : imageType = "" <;> by_cases h2 : mode = "" <;> simp [h1, h2]

/-! ## Claim C10 — total payload accessors -/

/-- C10: `GetString`/`GetInt` never fail: they return the value when the
    key maps to a JSON string/number and the zero value (`""`/`0`) when
    the key is absent or maps to a value of another kind. -/
theorem c10_payload_accessors_total (r : Response) (k : String) :
    (∀ s, List.lookup k r.data = some (JVal.str s) → r.GetString k = s) ∧
    ((∀ s, List.lookup k r.data ≠ some (JVal.str s)) → r.GetString k = "") ∧
    (∀ q, List.lookup k r.data = some (JVal.num q) → r.GetInt k = truncToInt q) ∧
    ((∀ q, List.lookup k r.data ≠ some (JVal.num q)) → r.GetInt k = 0) := by
  refine ⟨?_, ?_, ?_, ?_⟩
  · intro s h
    simp [Response.GetString, h]
  · intro h
    unfold Response.GetString
    split
    · rename_i s heq
      exact absurd heq (h s)
    · rfl
  · intro q h
    simp [Response.GetInt, h]
  · intro h
    unfold Response.GetInt
    split
    · rename_i q heq
      exact absurd heq (h q)
    · rfl

/-- C10 witness: a concrete payload with a string, a number and a boolean
    entry; lookups on present, absent and wrongly-typed keys. -/
theorem c10_payload_accessors_total_witness :
    Response.GetString ⟨[], [("a", JVal.str "x"), ("n", JVal.num 7),
      ("b", JVal.bool true)], 200, []⟩ "a" = "x" ∧
    Response.GetString ⟨[], [("a", JVal.str "x"), ("n", JVal.num 7),
      ("b", JVal.bool true)], 200, []⟩ "missing" = "" ∧
    Response.GetInt ⟨[], [("a", JVal.str "x"), ("n", JVal.num 7),
      ("b", JVal.bool true)], 200, []⟩ "n" = truncToInt 7 ∧
    Response.GetInt ⟨[], [("a", JVal.str "x"), ("n", JVal.num 7),
      ("b", JVal.bool true)], 200, []⟩ "b" = 0 := by
  refine ⟨(c10_payload_accessors_total _ "a").1 "x" (by rfl),
    (c10_payload_accessors_total _ "missing").2.1 ?_,
    (c10_payload_accessors_total _ "n").2.2.1 7 (by rfl),
    (c10_payload_accessors_total _ "b").2.2.2 ?_⟩
  · intro s h
    rw [show List.lookup "missing" [("a", JVal.str "x"), ("n", JVal.num 7),
      ("b", JVal.bool true)] = none from rfl] at h
    exact Option.noConfusion h
  · intro q h
    rw [show List.lookup "b" [("a", JVal.str "x"), ("n", JVal.num 7),
      ("b", JVal.bool true)] = some (JVal.bool true) from rfl] at h
    simp at h

/-! ## Hex digit and dump-row lemmas -/

/-- A single hex digit character is an uppercase hex digit. -/
theorem hexDigitCharU_upper (n : Nat) (h : n < 16) :
    isUpperHexDigit (hexDigitCharU n) = true := by
  interval_cases n <;> decide

/-- Every character produced by the digit expansion is an uppercase hex
    digit. -/
theorem hexDigitsAux_upper :
    ∀ fuel n, n < fuel → ∀ c ∈ hexDigitsAux fuel n, isUpperHexDigit c = true := by
  intro fuel
  induction fuel with
  | zero =>
      intro n hn
      exact absurd hn (Nat.not_lt_zero n)
  | succ f ih =>
      intro n hn c hc
      unfold hexDigitsAux at hc
      by_cases h16 : n < 16
      · rw [if_pos h16] at hc
        simp at hc
        subst hc
        exact hexDigitCharU_upper n h16
      · rw [if_neg h16] at hc
        have hdiv : n / 16 < n := Nat.div_lt_self (by omega) (by omega)
        rcases List.mem_append.mp hc with h | h
        · exact ih (n / 16) (by omega) c h
        · simp at h
          subst h
          exact hexDigitCharU_upper (n % 16) (Nat.mod_lt _ (by omega))

/-- Digit-count bound: a value below `16 ^ k` has at most `k` digits. -/
theorem hexDigitsAux_length_le :
    ∀ fuel k n, n < fuel → n < 16 ^ k → 0 < k → (hexDigitsAux fuel n).length ≤ k := by
  intro fuel
  induction fuel with
  | zero =>
      intro k n hn _ _
      exact absurd hn (Nat.not_lt_zero n)
  | succ f ih =>
      intro k n hn hpow hk
      unfold hexDigitsAux
      by_cases h16 : n < 16
      · rw [if_pos h16]
        simpa using hk
      · rw [if_neg h16]
        obtain ⟨m, rfl⟩ : ∃ m, k = m + 1 := ⟨k - 1, by omega⟩
        have hm : 0 < m := by
          by_contra hc
          have hm0 : m = 0 := by omega
          subst hm0
          rw [pow_one] at hpow
          omega
        have hdiv : n / 16 < n := Nat.div_lt_self (by omega) (by omega)
        have hpow' : n / 16 < 16 ^ m := by
          rw [Nat.div_lt_iff_lt_mul (by norm_num)]
          calc n < 16 ^ (m + 1) := hpow
            _ = 16 ^ m * 16 := by ring
        have hlen := ih m (n / 16) (by omega) hpow' hm
        simp only [List.length_append, List.length_cons, List.length_nil]
        omega

/-- Every character of `hexUpper n` is an uppercase hex digit. -/
theorem hexUpper_upper (n : Nat) : ∀ c ∈ hexUpper n, isUpperHexDigit c = true :=
  hexDigitsAux_upper (n + 1) n (Nat.lt_succ_self n)

/-- A 16-bit value has at most four hex digits. -/
theorem hexUpper_length_le_four (n : Nat) (h : n ≤ 0xFFFF) :
    (hexUpper n).length ≤ 4 :=
  hexDigitsAux_length_le (n + 1) 4 n (Nat.lt_succ_self n)
    (by
      have h4 : (16 : ℕ) ^ 4 = 65536 := by norm_num
      omega)
    (by norm_num)

/-- An uppercase hex digit is never a colon. -/
theorem upperHex_ne_colon (c : Char) (h : isUpperHexDigit c = true) :
    (c != ':') = true := by
  rw [bne_iff_ne]
  intro e
  subst e
  exact absurd h (by decide)

/-- Every character of the padded 4-digit address field is an uppercase
    hex digit. -/
theorem hexUpperPad_four_upper (n : Nat) :
    ∀ c ∈ (hexUpperPad 4 n).data, isUpperHexDigit c = true := by
  intro c hc
  rw [show (hexUpperPad 4 n).data
    = List.replicate (4 - (hexUpper n).length) '0' ++ hexUpper n from rfl] at hc
  rcases List.mem_append.mp hc with h | h
  · rw [List.eq_of_mem_replicate h]
    decide
  · exact hexUpper_upper n c h

/-- The padded address field of a 16-bit value has exactly four
    characters. -/
theorem hexUpperPad_four_length (n : Nat) (h : n ≤ 0xFFFF) :
    (hexUpperPad 4 n).data.length = 4 := by
  have hle := hexUpper_length_le_four n h
  rw [show (hexUpperPad 4 n).data
    = List.replicate (4 - (hexUpper n).length) '0' ++ hexUpper n from rfl]
  simp only [List.length_append, List.length_replicate]
  omega

/-- takeWhile stops exactly at the first failing element after a run of
    satisfying ones. -/
theorem takeWhile_append_cons {α : Type} (p : α → Bool) :
    ∀ (l₁ : List α) (c : α) (l₂ : List α), (∀ a ∈ l₁, p a = true) → p c = false →
      (l₁ ++ c :: l₂).takeWhile p = l₁ := by
  intro l₁
  induction l₁ with
  | nil =>
      intro c l₂ _ hc
      simp [List.takeWhile_cons, hc]
  | cons a t ih =>
      intro c l₂ h hc
      have ha : p a = true := h a (by simp)
      simp [List.takeWhile_cons, ha, ih c l₂ (fun x hx => h x (by simp [hx])) hc]

/-- The row list is a map over row indices. -/
theorem dumpRows_getD (data : List Nat) (startAddr r : Nat)
    (hr : r < (data.length + 15) / 16) :
    (dumpRows data startAddr).getD r "" = dumpRow data startAddr (16 * r) := by
  unfold dumpRows
  rw [List.getD_eq_getElem?_getD, List.getElem?_map, List.getElem?_range hr]
  rfl

/-- The characters of a dump row are the address field, a colon, and the
    rest. -/
theorem dumpRow_data (data : List Nat) (startAddr i : Nat) :
    (dumpRow data startAddr i).data
      = (hexUpperPad 4 (startAddr + i)).data
        ++ ':' :: ' ' :: ((hexCells data i).data
        ++ ' ' :: '|' :: ((asciiCol data i).data ++ '|' :: '\n' :: [])) := by
  unfold dumpRow
  simp only [String.data_append]
  simp [List.append_assoc]

/-! ## Claim C9 — 4-digit row addresses -/

/-- C9 counterexample: with start 0xFFF0 (a 16-bit value) and 17 bytes,
    the second row's address 0x10000 renders with five digits, not four. -/
theorem c9_counterexample :
    (((dumpRows (List.replicate 17 0) 0xFFF0).getD 1 "").data.takeWhile
      (fun c => c != ':')).length = 5 := by rfl

/-- C9 (amended): a row whose address `start + 16*r` still fits in 16 bits
    renders it as exactly 4 uppercase hex digits before the colon; rows
    pushed past 0xFFFF by their offset render more digits (the formatter
    pads to a minimum width of 4 and never wraps). -/
theorem c9_row_address_width (data : List Nat) (startAddr r : Nat)
    (hr : r < (data.length + 15) / 16) (hle : startAddr + 16 * r ≤ 0xFFFF) :
    ((dumpRows data startAddr).getD r "").data.takeWhile (fun c => c != ':')
      = (hexUpperPad 4 (startAddr + 16 * r)).data ∧
    (hexUpperPad 4 (startAddr + 16 * r)).data.length = 4 ∧
    (∀ c ∈ (hexUpperPad 4 (startAddr + 16 * r)).data, isUpperHexDigit c = true) := by
  refine ⟨?_, hexUpperPad_four_length _ hle, hexUpperPad_four_upper _⟩
  rw [dumpRows_getD data startAddr r hr, dumpRow_data]
  exact takeWhile_append_cons _ _ ':' _
    (fun c hc => upperHex_ne_colon c (hexUpperPad_four_upper _ c hc)) (by decide)

/-- C9 witness: the first row of a 17-byte dump at 0xFFF0 renders the
    address `FFF0` as exactly four uppercase hex digits. -/
theorem c9_row_address_width_witness :
    ((dumpRows (List.replicate 17 0) 0xFFF0).getD 0 "").data.takeWhile
        (fun c => c != ':')
      = (hexUpperPad 4 (0xFFF0 + 16 * 0)).data ∧
    (hexUpperPad 4 (0xFFF0 + 16 * 0)).data.length = 4 ∧
    (∀ c ∈ (hexUpperPad 4 (0xFFF0 + 16 * 0)).data, isUpperHexDigit c = true) :=
  c9_row_address_width (List.replicate 17 0) 0xFFF0 0 (by norm_num) (by norm_num)

/-! ## Claim C4 — exact dump format -/

/-- The 16 interleaved column slots equal the two 8-slot groups with the
    single extra space between them. -/
theorem hexCells_eq_specHexArea (data : List Nat) (i : Nat) :
    hexCells data i = specHexArea data i := by
  unfold hexCells specHexArea specHexCell
  rw [show List.range 16 = [0, 1, 2, 3, 4, 5, 6, 7, 8, 9, 10, 11, 12, 13, 14, 15] from rfl,
    show List.range' 0 8 = [0, 1, 2, 3, 4, 5, 6, 7] from rfl,
    show List.range' 8 8 = [8, 9, 10, 11, 12, 13, 14, 15] from rfl]
  simp [String.join, List.foldl, String.append_assoc, String.append_empty,
    String.empty_append]

/-- Each code row equals the spec row. -/
theorem dumpRow_eq_specRow (data : List Nat) (startAddr i : Nat) :
    dumpRow data startAddr i = specRow data startAddr i := by
  unfold dumpRow specRow
  rw [hexCells_eq_specHexArea]

/-- C4 counterexample: at start address 0x10000 the single row's address
    field has five characters, not the claimed four. -/
theorem c4_counterexample :
    ((FormatMemoryDump [0] 0x10000).data.takeWhile (fun c => c != ':')).length
      = 5 := by rfl

/-- C4 (amended): `FormatMemoryDump` renders, for each row index stepping
    by 16, the address as uppercase hex zero-padded to a minimum width of
    four (exactly four only while it fits in 16 bits) followed by `": "`,
    the two groups of eight column slots separated by the extra space
    after column 7 (each slot 2-digit uppercase hex plus a space in
    bounds, three spaces otherwise), then `" |"`, one character per
    in-bounds byte (printable ASCII as itself, `.` otherwise), `"|"` and a
    newline; `FormatMemoryDump [0x41, 0x42] 0x0400` is the single
    fully-padded row shown. -/
theorem c4_format_dump :
    (∀ (data : List Nat) (startAddr : Nat),
      FormatMemoryDump data startAddr = specFormatDump data startAddr) ∧
    FormatMemoryDump [0x41, 0x42] 0x0400
      = "0400: 41 42                                             |AB|\n" := by
  constructor
  · intro data startAddr
    unfold FormatMemoryDump dumpRows specFormatDump
    simp only [dumpRow_eq_specRow]
  · rfl

end C64U
